import Mathlib

/-!
# Verification of the Microsoft Style Guide analyzer core

Shallow embedding of the rule-based prose-quality analyzer implemented in
`fastmcp_style_server.py` (class `MicrosoftStyleGuideAnalyzer`, the offline
variant) and `fastmcp_style_server_web.py` (class
`WebEnabledStyleGuideAnalyzer`, the web variant).

Modelling conventions:
* Python strings are modelled as `String` / `List Char` (ASCII inputs;
  `Char.isAlpha`, `Char.isDigit`, `Char.toLower` agree with Python on ASCII).
* Python floats are modelled as `ℚ`; `round(x, 1)` is modelled as
  round-half-up to one decimal (no property below depends on half-way cases).
* The fixed regular expressions of the pattern library are embedded as
  direct left-to-right scanners that reproduce `re.findall` / `re.finditer`
  semantics (non-overlapping matches, alternation tried in source order,
  greedy quantifiers with the backtracking behaviour worked out per pattern).
* The enrichment / live-guidance collaborator is external (spec §5, §6):
  fetch failure degrades to empty guidance, so `live_guidance` is modelled
  as the empty dict and the web-only fields `web_enabled` / `timestamp` as
  the constants `True` / `0.0` where they appear in a repr.
-/

set_option maxRecDepth 4000

/- The Batteries rational-number operations are `@[irreducible]`, which stops
the evaluation performed by `decide` on concrete inputs; scores and statistics
are plain `ℚ` arithmetic, so make the operations transparent for this file. -/
attribute [local semireducible] Rat.mul Rat.add Rat.sub Rat.inv Rat.ofScientific

/-! ## Character classes (Python `\w`, `\s`, `[.!?]`, `[A-Z]` over ASCII) -/

/-- Python regex `\w` on ASCII: letters, digits, underscore. -/
def isPyWordChar (c : Char) : Bool :=
  c.isAlpha || c.isDigit || c == '_'

/-- Python whitespace (`\s`, `str.split()`, `str.strip()`) on ASCII:
space, tab, newline, carriage return, vertical tab, form feed. -/
def isPyWs (c : Char) : Bool :=
  ([' ', '\t', '\n', '\r', '\x0b', '\x0c'] : List Char).contains c

/-- Sentence terminators, the character class `[.!?]`. -/
def isTermCh (c : Char) : Bool :=
  c == '.' || c == '!' || c == '?'

/-! ## Python string utilities -/

/-- Split a character list at every character satisfying `p`
(the segments between separator characters, empties included).
`re.split('[.!?]+', text)` differs from this single-character split only by
the extra empty segments between adjacent separators, and every use below
filters out segments that are empty after stripping, so the counts agree. -/
def splitOnPred (p : Char → Bool) : List Char → List (List Char)
  | [] => [[]]
  | c :: cs =>
    if p c then [] :: splitOnPred p cs
    else
      match splitOnPred p cs with
      | [] => [[c]]
      | s :: ss => (c :: s) :: ss

/-- Python `str.split('\n\n')`: split on the literal two-character separator,
scanning left to right, non-overlapping. -/
def splitNN : List Char → List (List Char)
  | '\n' :: '\n' :: rest => [] :: splitNN rest
  | c :: rest =>
    match splitNN rest with
    | [] => [[c]]
    | s :: ss => (c :: s) :: ss
  | [] => [[]]

/-- Python `str.strip()`: drop whitespace from both ends. -/
def stripWs (l : List Char) : List Char :=
  ((l.dropWhile isPyWs).reverse.dropWhile isPyWs).reverse

/-- `text.split()` (Python, no argument): maximal runs of non-whitespace. -/
def pyWords (text : String) : List (List Char) :=
  (splitOnPred isPyWs text.data).filter (fun w => !w.isEmpty)

/-- `[s for s in re.split(r'[.!?]+', text) if s.strip()]` — the segments
between terminator runs that still contain a non-whitespace character. -/
def pySentences (text : String) : List (List Char) :=
  (splitOnPred isTermCh text.data).filter (fun s => !(stripWs s).isEmpty)

/-- `pat` matches the head of the text case-insensitively
(`pat` supplied already lower-cased). -/
def leadsCI : List Char → List Char → Bool
  | [], _ => true
  | _ :: _, [] => false
  | a :: as, c :: cs => (a == c.toLower) && leadsCI as cs

/-- Case-insensitive substring test, Python `needle in hay` after `.lower()`
on both sides (the needle is supplied already lower-cased). -/
def containsSubCI (needle : List Char) : List Char → Bool
  | [] => needle.isEmpty
  | c :: cs => leadsCI needle (c :: cs) || containsSubCI needle cs

/-! ## Generic regex scanner

`re.finditer` scans positions left to right; at each position it attempts the
pattern, and on success emits the match and resumes after its end.  The
boolean state threaded through the scan is pattern-dependent context about the
previous character: "previous char is a word char" for `\b`-anchored patterns,
"at a line start" for `^`-anchored (MULTILINE) patterns. -/

/-- State after skipping exactly the matched chunk `m` (falls back to the
current state on an empty chunk, which no matcher below produces). -/
def chunkState (stepState : Char → Bool) (st : Bool) (m : List Char) : Bool :=
  match m.getLast? with
  | some c => stepState c
  | none => st

/-- The scan loop: `tryM st l` attempts a match at the current position given
context `st`; on success the matched prefix is recorded with its character
offset and scanning resumes after it.  The scan advances at least one
character per step, so the `fuel` counter — initialised to the input length
by every caller — bounds the recursion structurally and is never exhausted
(each step consumes `n ≥ 1` characters and one unit of fuel). -/
def scanAux (tryM : Bool → List Char → Option (List Char))
    (stepState : Char → Bool) :
    Nat → List Char → Bool → Nat → List (Nat × List Char)
  | _, [], _, _ => []
  | 0, _ :: _, _, _ => []
  | fuel + 1, c :: cs, st, i =>
    match tryM st (c :: cs) with
    | some m =>
      let n := max m.length 1
      (i, m) :: scanAux tryM stepState fuel ((c :: cs).drop n) (chunkState stepState st m) (i + n)
    | none => scanAux tryM stepState fuel cs (stepState c) (i + 1)

/-- `\b` holds after the consumed chunk of a word-alternation match iff the
next character is absent or is not a word character. -/
def wordBoundaryAfter : List Char → Bool
  | [] => true
  | c :: _ => !isPyWordChar c

/-- Attempt `\b(alt₁|alt₂|…)\b` at the head of `l` (alternatives supplied
lower-case, tried in source order as the backtracking engine does); the
leading `\b` is enforced by the caller via the previous-char state.  Returns
the matched prefix in its original case (`match.group()`). -/
def matchWordAlt (alts : List (List Char)) (l : List Char) : Option (List Char) :=
  alts.findSome? fun a =>
    if leadsCI a l && wordBoundaryAfter (l.drop a.length) then
      some (l.take a.length)
    else none

/-- All non-overlapping matches of `\b(…)\b` with `re.IGNORECASE`:
positions and matched text. -/
def scanWordAlt (alts : List (List Char)) (text : String) : List (Nat × List Char) :=
  scanAux (fun st l => if st then none else matchWordAlt alts l)
    isPyWordChar text.data.length text.data false 0
/-! ## The pattern library (`self.patterns`, identical in both variants) -/

/-- Alternatives of `contractions`:
`\b(it's|you're|we're|don't|can't|won't|let's|you'll|we'll)\b`. -/
def contractionAlts : List (List Char) :=
  (["it's", "you're", "we're", "don't", "can't", "won't", "let's", "you'll", "we'll"]).map
    String.data

/-- Alternative of `you_addressing`: `\byou\b`. -/
def youAlts : List (List Char) := [String.data "you"]

/-- Alternatives of `gendered_pronouns`: `\b(he|him|his|she|her|hers)\b`. -/
def genderedAlts : List (List Char) :=
  (["he", "him", "his", "she", "her", "hers"]).map String.data

/-- Alternatives of `non_inclusive_terms`:
`\b(guys|mankind|blacklist|whitelist|master|slave|crazy|insane|lame)\b`. -/
def nonInclusiveAlts : List (List Char) :=
  (["guys", "mankind", "blacklist", "whitelist", "master", "slave", "crazy",
    "insane", "lame"]).map String.data

/-- Auxiliary-verb alternatives of `passive_voice`, in source order. -/
def passiveAuxAlts : List (List Char) :=
  (["is", "are", "was", "were", "been", "be"]).map String.data

/-- The maximal `\w*` run ends in `ed` (case-insensitively, `re.IGNORECASE`). -/
def endsWithEd (run : List Char) : Bool :=
  match run.reverse with
  | d :: e :: _ => d.toLower == 'd' && e.toLower == 'e'
  | _ => false

/-- Attempt `\b(is|are|was|were|been|be)\s+\w*ed\b` (IGNORECASE) at the head
of `l` (leading `\b` enforced by the scanner state).  After the auxiliary the
greedy `\s+` must consume the maximal whitespace run and `\w*ed\b` forces the
following maximal word-character run to end in `ed`; backtracking admits no
other decomposition. -/
def matchPassiveAt (l : List Char) : Option (List Char) :=
  passiveAuxAlts.findSome? fun a =>
    if leadsCI a l then
      let rest := l.drop a.length
      let ws := rest.takeWhile isPyWs
      if ws.length ≥ 1 then
        let run := (rest.drop ws.length).takeWhile isPyWordChar
        if endsWithEd run then
          some (l.take (a.length + ws.length + run.length))
        else none
      else none
    else none

/-- Non-overlapping matches of the `passive_voice` pattern with positions. -/
def scanPassive (text : String) : List (Nat × List Char) :=
  scanAux (fun st l => if st then none else matchPassiveAt l)
    isPyWordChar text.data.length text.data false 0

/-- Attempt `[.!?]+\s*[A-Z][^.!?]{100,}[.!?]` (case-sensitive, the
`long_sentences` pattern) at the head of `l`.  Greedy `[.!?]+` and `\s*` must
take their maximal runs (shorter choices put a terminator or whitespace where
`[A-Z]` is required), and the greedy `[^.!?]{100,}` must take the maximal
non-terminator run, which must have length ≥ 100 and be followed by one more
terminator. -/
def matchLongAt (l : List Char) : Option (List Char) :=
  let t := l.takeWhile isTermCh
  if t.length ≥ 1 then
    let r1 := l.drop t.length
    let w := r1.takeWhile isPyWs
    match r1.drop w.length with
    | c :: r3 =>
      if c.isUpper then
        let run := r3.takeWhile (fun d => !isTermCh d)
        if run.length ≥ 100 && !(r3.drop run.length).isEmpty then
          some (l.take (t.length + w.length + 1 + run.length + 1))
        else none
      else none
    | [] => none
  else none

/-- Non-overlapping matches of `long_sentences` (no IGNORECASE flag is passed
for this pattern in the source). -/
def scanLong (text : String) : List (Nat × List Char) :=
  scanAux (fun _ l => matchLongAt l) isPyWordChar text.data.length text.data false 0

/-! ## Structural-review scanners (`_review_structure`, web variant) -/

/-- Attempt `^#+\s` (MULTILINE) at a line start: one or more `#` followed by
one whitespace character (which may itself be the newline). -/
def matchHeadingAt (l : List Char) : Option (List Char) :=
  let run := l.takeWhile (fun c => c == '#')
  if run.length ≥ 1 then
    match l.drop run.length with
    | c :: _ => if isPyWs c then some (l.take (run.length + 1)) else none
    | [] => none
  else none

/-- `len(re.findall(r'^#+\s', document_text, re.MULTILINE))`. -/
def headingCount (text : String) : Nat :=
  (scanAux (fun st l => if st then matchHeadingAt l else none)
    (fun c => c == '\n') text.data.length text.data true 0).length

/-- Attempt `^\s*[-*+]\s` (MULTILINE) at a line start: greedy `\s*` takes the
maximal whitespace run (newlines included), then a bullet character, then one
whitespace character. -/
def matchBulletAt (l : List Char) : Option (List Char) :=
  let w := l.takeWhile isPyWs
  match l.drop w.length with
  | c :: d :: _ =>
    if (c == '-' || c == '*' || c == '+') && isPyWs d then
      some (l.take (w.length + 2))
    else none
  | _ => none

/-- `len(re.findall(r'^\s*[-*+]\s', document_text, re.MULTILINE))`. -/
def bulletCount (text : String) : Nat :=
  (scanAux (fun st l => if st then matchBulletAt l else none)
    (fun c => c == '\n') text.data.length text.data true 0).length

/-! ## Counting helpers used by both analyzers -/

/-- `len(re.findall(self.patterns["contractions"], text, re.IGNORECASE))`. -/
def contractionCount (text : String) : Nat :=
  (scanWordAlt contractionAlts text).length

/-- `len(re.findall(self.patterns["you_addressing"], text, re.IGNORECASE))`. -/
def youCount (text : String) : Nat :=
  (scanWordAlt youAlts text).length
/-! ## Data model -/

/-- Issue categories (the `"type"` key of an issue dict; `type` is a Lean
keyword, so the field is called `category` here). -/
inductive Category where
  | voice_tone
  | grammar
  | terminology
  | accessibility
deriving DecidableEq, Repr

/-- Issue severities. -/
inductive Severity where
  | info
  | warning
  | error
deriving DecidableEq, Repr

/-- A detected style deviation.  The optional fields model the keys that are
present only in some issue dicts of the source (`position`, `text`, `note`,
`principle`). -/
structure Issue where
  category : Category
  severity : Severity
  position : Option Nat
  text : Option String
  message : String
  note : Option String
  principle : Option String
deriving DecidableEq, Repr

/-- A positive reinforcement signal (`"type": "positive"` in the source). -/
structure Suggestion where
  kind : String
  message : String
  principle : String
deriving DecidableEq, Repr

/-- Python `round(x, 1)` modelled as round-half-up to one decimal
(`Rat.floor` is used rather than `round` so the value kernel-reduces). -/
def roundTo1 (q : ℚ) : ℚ := (Rat.floor (q * 10 + 1/2) : ℤ) / 10

/-- The `statistics` sub-dict. -/
structure Statistics where
  word_count : Nat
  sentence_count : Nat
  avg_words_per_sentence : ℚ
deriving DecidableEq, Repr

/-- The three status tiers.  The source stores decorated strings
(`"✅ Excellent"` / `"⚠️ Good"` / `"❌ Needs Work"`); the tiers are identical
in both variants, so they are modelled as one inductive. -/
inductive Status where
  | excellent
  | good
  | needsWork
deriving DecidableEq, Repr

/-- The result dict of `analyze_content`.  `style_guide_url` is the constant
base URL; the web-only keys `live_guidance` / `web_enabled` / `timestamp` are
left out here (enrichment is an external collaborator whose failure degrades
to empty guidance) and reappear as constants in the repr used by the
recommendation engine. -/
structure AnalysisResult where
  status : Status
  assessment : String
  statistics : Statistics
  issues : List Issue
  suggestions : List Suggestion
  total_issues : Nat
  analysis_type : String
deriving DecidableEq, Repr

/-! ## Terminology table (`self.terminology_standards`, both variants) -/

/-- One entry of the terminology table. -/
structure TerminologyStandard where
  key : String
  correct : String
  avoid : List String
  note : String

/-- The six entries in dict insertion order. -/
def terminology_standards : List TerminologyStandard :=
  [ { key := "AI", correct := "AI", avoid := ["A.I."], note := "No periods" }
  , { key := "email", correct := "email", avoid := ["e-mail"], note := "One word" }
  , { key := "website", correct := "website", avoid := ["web site"], note := "One word" }
  , { key := "sign_in", correct := "sign in (verb), sign-in (noun)",
      avoid := ["login", "log in"], note := "Microsoft standard" }
  , { key := "setup", correct := "set up (verb), setup (noun)",
      avoid := ["setup (verb)"], note := "Context dependent" }
  , { key := "wifi", correct := "Wi-Fi", avoid := ["WiFi", "wifi"],
      note := "Hyphenated, both caps" } ]

/-! ## Per-check issue builders (code identical in both source variants) -/

/-- The voice-and-tone block: contraction count and `you` count, producing a
positive Suggestion or an info Issue for contractions, and a positive
Suggestion for `you` usage (issues, suggestions — in emission order). -/
def voiceToneChecks (text : String) : List Issue × List Suggestion :=
  let contractions := contractionCount text
  let you_usage := youCount text
  let base : List Issue × List Suggestion :=
    if contractions > 0 then
      ([], [{ kind := "positive"
            , message := "Good use of contractions (" ++ toString contractions ++
                " found) - supports warm, natural tone"
            , principle := "warm_and_relaxed" }])
    else
      ([{ category := Category.voice_tone, severity := Severity.info
        , position := none, text := none
        , message := "Consider using contractions (it's, you're, we'll) for a more natural tone"
        , note := none, principle := some "warm_and_relaxed" }], [])
  let youSuggestion : Suggestion :=
    { kind := "positive"
    , message := "Good use of 'you' (" ++ toString you_usage ++
        " instances) - directly engages readers"
    , principle := "ready_to_help" }
  if you_usage > 0 then (base.1, base.2 ++ [youSuggestion]) else base

/-- One warning Issue per passive-voice match. -/
def passiveIssues (text : String) : List Issue :=
  (scanPassive text).map fun pm =>
    { category := Category.grammar, severity := Severity.warning
    , position := some pm.1, text := some (String.mk pm.2)
    , message := "Consider using active voice for clarity"
    , note := none, principle := some "crisp_and_clear" }

/-- One info Issue per long-sentence match (no `text` key in the source). -/
def longSentenceIssues (text : String) : List Issue :=
  (scanLong text).map fun pm =>
    { category := Category.grammar, severity := Severity.info
    , position := some pm.1, text := none
    , message := "Long sentence detected - consider breaking into shorter sentences"
    , note := none, principle := some "crisp_and_clear" }

/-- One warning Issue per discouraged terminology variant found by
case-insensitive substring search of the full text. -/
def terminologyIssues (text : String) : List Issue :=
  terminology_standards.flatMap fun std =>
    std.avoid.filterMap fun avoid_term =>
      if containsSubCI (avoid_term.data.map Char.toLower) text.data then
        some { category := Category.terminology, severity := Severity.warning
             , position := none, text := some avoid_term
             , message := "Use '" ++ std.correct ++ "' instead of '" ++ avoid_term ++ "'"
             , note := some std.note, principle := none }
      else none

/-- The error Issue built for one non-inclusive-term match. -/
def mkNonInclusiveIssue (pm : Nat × List Char) : Issue :=
  { category := Category.accessibility, severity := Severity.error
  , position := some pm.1, text := some (String.mk pm.2)
  , message := "'" ++ String.mk pm.2 ++ "' may not be inclusive - consider alternatives"
  , note := none, principle := some "bias_free_communication" }

/-- One error Issue per non-inclusive-term match. -/
def nonInclusiveIssues (text : String) : List Issue :=
  (scanWordAlt nonInclusiveAlts text).map mkNonInclusiveIssue

/-- One warning Issue per gendered-pronoun match. -/
def genderedIssues (text : String) : List Issue :=
  (scanWordAlt genderedAlts text).map fun pm =>
    { category := Category.accessibility, severity := Severity.warning
    , position := some pm.1, text := some (String.mk pm.2)
    , message := "Consider gender-neutral alternatives"
    , note := none, principle := some "bias_free_communication" }

/-- The basic statistics block (identical in both variants). -/
def computeStatistics (text : String) : Statistics :=
  let word_count := (pyWords text).length
  let sentence_count := (pySentences text).length
  { word_count := word_count
  , sentence_count := sentence_count
  , avg_words_per_sentence := roundTo1 ((word_count : ℚ) / (max 1 sentence_count : ℕ)) }

/-- `status` from the total issue count: 0 → Excellent, ≤ 2 → Good,
else Needs Work. -/
def statusOfCount (total_issues : Nat) : Status :=
  if total_issues = 0 then Status.excellent
  else if total_issues ≤ 2 then Status.good
  else Status.needsWork

/-- `assessment` from the total issue count (same branching). -/
def assessmentOfCount (total_issues : Nat) : String :=
  if total_issues = 0 then "Content follows Microsoft Style Guide principles well"
  else if total_issues ≤ 2 then "Minor style improvements suggested"
  else "Multiple style issues detected"
/-! ## The two analyzers -/

/-- Issue list of `MicrosoftStyleGuideAnalyzer.analyze_content` (offline
variant): every check is gated on `analysis_type`, in source order
voice/tone, grammar (passive then long sentences), terminology,
accessibility (non-inclusive terms then gendered pronouns). -/
def offlineIssues (text : String) (analysis_type : String) : List Issue :=
  (if analysis_type ∈ ["comprehensive", "voice_tone"] then (voiceToneChecks text).1 else []) ++
  (if analysis_type ∈ ["comprehensive", "grammar"] then
    passiveIssues text ++ longSentenceIssues text else []) ++
  (if analysis_type ∈ ["comprehensive", "terminology"] then terminologyIssues text else []) ++
  (if analysis_type ∈ ["comprehensive", "accessibility"] then
    nonInclusiveIssues text ++ genderedIssues text else [])

/-- Suggestion list of the offline variant (produced only by the gated
voice-and-tone block). -/
def offlineSuggestions (text : String) (analysis_type : String) : List Suggestion :=
  if analysis_type ∈ ["comprehensive", "voice_tone"] then (voiceToneChecks text).2 else []

/-- `MicrosoftStyleGuideAnalyzer.analyze_content` (offline variant). -/
def analyze_content (text : String) (analysis_type : String) : AnalysisResult :=
  let issues := offlineIssues text analysis_type
  { status := statusOfCount issues.length
  , assessment := assessmentOfCount issues.length
  , statistics := computeStatistics text
  , issues := issues
  , suggestions := offlineSuggestions text analysis_type
  , total_issues := issues.length
  , analysis_type := analysis_type }

/-- Issue list of `WebEnabledStyleGuideAnalyzer.analyze_content` (web
variant): the voice-and-tone block runs unconditionally, the grammar gate
runs only the passive-voice check, and the accessibility gate runs only the
non-inclusive-terms check. -/
def webIssues (text : String) (analysis_type : String) : List Issue :=
  (voiceToneChecks text).1 ++
  (if analysis_type ∈ ["comprehensive", "grammar"] then passiveIssues text else []) ++
  (if analysis_type ∈ ["comprehensive", "terminology"] then terminologyIssues text else []) ++
  (if analysis_type ∈ ["comprehensive", "accessibility"] then nonInclusiveIssues text else [])

/-- Suggestion list of the web variant (voice-and-tone block, unconditional). -/
def webSuggestions (text : String) : List Suggestion :=
  (voiceToneChecks text).2

/-- `WebEnabledStyleGuideAnalyzer.analyze_content` (web variant); the
`live_guidance` / `web_enabled` / `timestamp` keys are the web-only fields
(enrichment degrades to empty guidance and is modelled as absent). -/
def analyze_content_web (text : String) (analysis_type : String) : AnalysisResult :=
  let issues := webIssues text analysis_type
  { status := statusOfCount issues.length
  , assessment := assessmentOfCount issues.length
  , statistics := computeStatistics text
  , issues := issues
  , suggestions := webSuggestions text
  , total_issues := issues.length
  , analysis_type := analysis_type }

/-! ## Tool-level wrappers -/

/-- Result of the tool-level `analyze_content`: either a structured error
object (a dict holding only an `error` key — no issues, suggestions or
statistics) or the analyzer result.  The success formatting (`summary`) is
presentation only and out of scope. -/
inductive ToolResult where
  | error (msg : String)
  | ok (result : AnalysisResult)
deriving DecidableEq

/-- The `@app.tool() analyze_content` wrapper of the offline server:
`if not text.strip(): return {"error": "No text provided for analysis"}`. -/
def analyze_content_tool (text : String) (analysis_type : String) : ToolResult :=
  if stripWs text.data = [] then ToolResult.error "No text provided for analysis"
  else ToolResult.ok (analyze_content text analysis_type)

/-- The `@app.tool() analyze_content` wrapper of the web server (same guard
and message). -/
def analyze_content_tool_web (text : String) (analysis_type : String) : ToolResult :=
  if stripWs text.data = [] then ToolResult.error "No text provided for analysis"
  else ToolResult.ok (analyze_content_web text analysis_type)

/-! ## `get_style_guidelines` (both variants)

The principle payloads are static reference text (spec §6: "static reference
data, no analysis logic"); they are modelled by the dict keys inserted into
`principles`, which is what the category gating controls.  The source never
inserts an `error` key into the returned dict; that is modelled by the
constant `error := none`. -/

/-- The guidelines dict: category echo, base URL, inserted principle groups,
and the (never set) error field. -/
structure StyleGuidelines where
  category : String
  base_url : String
  principles : List String
  error : Option String
deriving DecidableEq

/-- `MicrosoftStyleGuideAnalyzer.get_style_guidelines`: each principle group
is inserted iff `category in [<group>, "all"]`. -/
def get_style_guidelines (category : String) : StyleGuidelines :=
  { category := category
  , base_url := "https://learn.microsoft.com/en-us/style-guide"
  , principles :=
      (if category ∈ ["voice", "all"] then ["voice_and_tone"] else []) ++
      (if category ∈ ["grammar", "all"] then ["grammar"] else []) ++
      (if category ∈ ["terminology", "all"] then ["terminology"] else []) ++
      (if category ∈ ["accessibility", "all"] then ["accessibility"] else [])
  , error := none }

/-- `WebEnabledStyleGuideAnalyzer.get_style_guidelines`: identical gating
(the web variant only adds an `official_url` entry inside each group's
payload and a `web_enabled` flag). -/
def get_style_guidelines_web (category : String) : StyleGuidelines :=
  { category := category
  , base_url := "https://learn.microsoft.com/en-us/style-guide"
  , principles :=
      (if category ∈ ["voice", "all"] then ["voice_and_tone"] else []) ++
      (if category ∈ ["grammar", "all"] then ["grammar"] else []) ++
      (if category ∈ ["terminology", "all"] then ["terminology"] else []) ++
      (if category ∈ ["accessibility", "all"] then ["accessibility"] else [])
  , error := none }
/-! ## Quality scorer (`_calculate_quality_scores`, web variant) -/

/-- The four axis scores. -/
structure QualityScores where
  voice_tone : ℚ
  clarity : ℚ
  accessibility : ℚ
  compliance : ℚ
deriving DecidableEq, Repr

/-- `WebEnabledStyleGuideAnalyzer._calculate_quality_scores`, translated
operation by operation (penalties and bonuses applied sequentially, then the
final `max(0, min(10, ·))` clamp). -/
def calculate_quality_scores (analysis : AnalysisResult) (document_text : String) :
    QualityScores :=
  let contractions := contractionCount document_text
  let you_usage := youCount document_text
  let voice_issues :=
    (analysis.issues.filter (fun i => i.category == Category.voice_tone)).length
  let voice_score : ℚ :=
    10 - (voice_issues : ℚ) * 2 + min ((contractions : ℚ) * (1/2)) 2 +
      min ((you_usage : ℚ) * (1/5)) 1
  let avg_sentence_length := analysis.statistics.avg_words_per_sentence
  let clarity_issues :=
    (analysis.issues.filter (fun i => i.category == Category.grammar)).length
  let clarity_base : ℚ := 10 - (clarity_issues : ℚ) * (3/2)
  let clarity_score : ℚ :=
    if avg_sentence_length > 25 then
      clarity_base - (avg_sentence_length - 25) * (1/10)
    else clarity_base
  let accessibility_issues :=
    (analysis.issues.filter (fun i => i.category == Category.accessibility)).length
  let accessibility_score : ℚ := 10 - (accessibility_issues : ℚ) * 3
  let terminology_issues :=
    (analysis.issues.filter (fun i => i.category == Category.terminology)).length
  let compliance_score : ℚ := 10 - (terminology_issues : ℚ) * 2
  { voice_tone := max 0 (min 10 voice_score)
  , clarity := max 0 (min 10 clarity_score)
  , accessibility := max 0 (min 10 accessibility_score)
  , compliance := max 0 (min 10 compliance_score) }

/-- `clamp(x, lo, hi)` as written in the spec's formulas. -/
def clamp (lo hi x : ℚ) : ℚ := max lo (min hi x)

/-- The quality-score formulas exactly as the spec states them (spec §4.3),
as a function of the issue counts, pattern counts and average sentence
length.  This is the spec-side definition to be compared with the
source-side `calculate_quality_scores`. -/
def specQualityScores (voiceToneIssueCount grammarIssueCount accessibilityIssueCount
    terminologyIssueCount contractionCnt youCnt : Nat) (avgWordsPerSentence : ℚ) :
    QualityScores :=
  { voice_tone := clamp 0 10 (10 - 2 * (voiceToneIssueCount : ℚ) +
      min ((1/2) * (contractionCnt : ℚ)) 2 + min ((1/5) * (youCnt : ℚ)) 1)
  , clarity := clamp 0 10 (10 - (3/2) * (grammarIssueCount : ℚ) -
      max 0 (avgWordsPerSentence - 25) * (1/10))
  , accessibility := clamp 0 10 (10 - 3 * (accessibilityIssueCount : ℚ))
  , compliance := clamp 0 10 (10 - 2 * (terminologyIssueCount : ℚ)) }

/-! ## Recommendation engine (`_generate_recommendations_with_web`)

The low-priority contraction check of the source is
`len(re.findall(r"\b(it's|you're|we're|don't|can't|won't)\b", str(analysis),
re.IGNORECASE)) == 0`: it searches the *string representation of the analysis
dict* (not the document text) with a *reduced* contraction alternation.  The
dict repr is reproduced below; numeric formatting cannot influence the
word-boundary-delimited search, `live_guidance` is the empty dict (enrichment
absent) and `timestamp` is rendered as the constant `0.0`. -/

/-- Python repr of a one-decimal float value (the only floats appearing in an
analysis dict are `round(·, 1)` results). -/
def pyFloatRepr (q : ℚ) : String :=
  let z : ℤ := Rat.floor (q * 10 + 1/2)
  (if z < 0 then "-" else "") ++ toString (z.natAbs / 10) ++ "." ++ toString (z.natAbs % 10)

/-- Python repr of a string: single quotes, or double quotes when the string
itself contains a single quote (no string in an analysis dict contains both). -/
def pyStrRepr (s : String) : String :=
  if s.data.contains '\'' then "\"" ++ s ++ "\"" else "'" ++ s ++ "'"

/-- The `"type"` string of an issue category. -/
def categoryStr : Category → String
  | Category.voice_tone => "voice_tone"
  | Category.grammar => "grammar"
  | Category.terminology => "terminology"
  | Category.accessibility => "accessibility"

/-- The severity string of an issue. -/
def severityStr : Severity → String
  | Severity.info => "info"
  | Severity.warning => "warning"
  | Severity.error => "error"

/-- The status string of the web variant. -/
def statusStrWeb : Status → String
  | Status.excellent => "✅ Excellent"
  | Status.good => "⚠️ Good"
  | Status.needsWork => "❌ Needs Work"

/-- Python repr of one issue dict, keys in insertion order
(`type`, `severity`, [`position`], [`text`], `message`, [`note`],
[`principle`] — exactly the keys each issue kind sets). -/
def issueRepr (i : Issue) : String :=
  "\x7b'type': " ++ pyStrRepr (categoryStr i.category) ++
  ", 'severity': " ++ pyStrRepr (severityStr i.severity) ++
  (match i.position with
   | some p => ", 'position': " ++ toString p
   | none => "") ++
  (match i.text with
   | some t => ", 'text': " ++ pyStrRepr t
   | none => "") ++
  ", 'message': " ++ pyStrRepr i.message ++
  (match i.note with
   | some n => ", 'note': " ++ pyStrRepr n
   | none => "") ++
  (match i.principle with
   | some p => ", 'principle': " ++ pyStrRepr p
   | none => "") ++ "\x7d"

/-- Python repr of one suggestion dict. -/
def suggestionRepr (s : Suggestion) : String :=
  "\x7b'type': " ++ pyStrRepr s.kind ++ ", 'message': " ++ pyStrRepr s.message ++
  ", 'principle': " ++ pyStrRepr s.principle ++ "\x7d"

/-- Python repr of a list of dicts. -/
def listRepr {α : Type} (f : α → String) (l : List α) : String :=
  "[" ++ String.intercalate ", " (l.map f) ++ "]"

/-- Python `str(analysis)` for a web analysis dict, keys in insertion order. -/
def analysisRepr (a : AnalysisResult) : String :=
  "\x7b'status': " ++ pyStrRepr (statusStrWeb a.status) ++
  ", 'assessment': " ++ pyStrRepr a.assessment ++
  ", 'statistics': \x7b'word_count': " ++ toString a.statistics.word_count ++
  ", 'sentence_count': " ++ toString a.statistics.sentence_count ++
  ", 'avg_words_per_sentence': " ++ pyFloatRepr a.statistics.avg_words_per_sentence ++
  "\x7d, 'issues': " ++ listRepr issueRepr a.issues ++
  ", 'suggestions': " ++ listRepr suggestionRepr a.suggestions ++
  ", 'total_issues': " ++ toString a.total_issues ++
  ", 'analysis_type': " ++ pyStrRepr a.analysis_type ++
  ", 'style_guide_url': 'https://learn.microsoft.com/en-us/style-guide'" ++
  ", 'live_guidance': \x7b\x7d, 'web_enabled': True, 'timestamp': 0.0\x7d"

/-- The reduced contraction alternation of the recommendation engine:
`\b(it's|you're|we're|don't|can't|won't)\b` (three alternatives fewer than
the pattern library's `contractions`). -/
def reducedContractionAlts : List (List Char) :=
  (["it's", "you're", "we're", "don't", "can't", "won't"]).map String.data

/-- The three recommendation tiers. -/
structure Recommendations where
  high_priority : List String
  medium_priority : List String
  low_priority : List String
deriving DecidableEq

/-- `WebEnabledStyleGuideAnalyzer._generate_recommendations_with_web`.
The web-enhanced medium-priority entry fires on a non-empty `live_guidance`,
which is absent here (enrichment degrades to empty), so it never fires in
this model. -/
def generate_recommendations_with_web (analysis : AnalysisResult)
    (quality_scores : QualityScores) : Recommendations :=
  let accessibility_issues := analysis.issues.filter
    (fun i => i.category == Category.accessibility && i.severity == Severity.error)
  let high_priority : List String :=
    (if !accessibility_issues.isEmpty then
      ["Fix inclusive language violations - these are critical for Microsoft standards"]
     else []) ++
    (if quality_scores.accessibility < 7 then
      ["Address accessibility concerns immediately"] else [])
  let medium_priority : List String :=
    (if quality_scores.voice_tone < 7 then
      ["Improve voice and tone to match Microsoft's warm, conversational style"]
     else []) ++
    (if quality_scores.clarity < 7 then
      ["Simplify complex sentences and reduce passive voice usage"] else []) ++
    (if analysis.statistics.avg_words_per_sentence > 25 then
      ["Break down long sentences for better readability"] else [])
  let low_priority : List String :=
    (if quality_scores.compliance < 9 then
      ["Update terminology to match Microsoft standards"] else []) ++
    (if (scanWordAlt reducedContractionAlts (analysisRepr analysis)).length = 0 then
      ["Add contractions to make tone more natural and conversational"] else [])
  { high_priority := if high_priority.isEmpty then ["No critical issues found"] else high_priority
  , medium_priority :=
      if medium_priority.isEmpty then ["Minor style improvements available"] else medium_priority
  , low_priority :=
      if low_priority.isEmpty then ["Content meets Microsoft standards well"] else low_priority }

/-! ## Structural review (`_review_structure`, web variant) -/

/-- The structural-review result. -/
structure StructureReview where
  paragraph_count : Nat
  heading_count : Nat
  list_count : Nat
  structure_quality : String
  organization_score : ℚ
deriving DecidableEq

/-- `WebEnabledStyleGuideAnalyzer._review_structure`: paragraphs are the
blank-line-delimited blocks that survive `strip()`, headings and list items
are MULTILINE regex match counts, and the quality flag follows the
`if document_type in ["tutorial", "user_guide"] and headings < 3 / elif
paragraphs > 10 and headings < 2` chain. -/
def review_structure (document_text : String) (document_type : String) :
    StructureReview :=
  let paragraphs := (splitNN document_text.data).filter (fun p => !(stripWs p).isEmpty)
  let headings := headingCount document_text
  let lists := bulletCount document_text
  let structure_quality :=
    if (document_type ∈ ["tutorial", "user_guide"]) ∧ headings < 3 then
      "Needs more headings for navigation"
    else if paragraphs.length > 10 ∧ headings < 2 then
      "Long content needs better organization"
    else "Good"
  { paragraph_count := paragraphs.length
  , heading_count := headings
  , list_count := lists
  , structure_quality := structure_quality
  , organization_score := min 10 ((headings : ℚ) * 2 + (lists : ℚ) * (1/2)) }
/-! ## Remaining definitions used by the theorems -/

/-- The issue kinds the web variant's `analyze_content` omits relative to the
offline variant: long-sentence issues (grammar/info) and gendered-pronoun
issues (accessibility/warning). -/
def webOmitted (i : Issue) : Bool :=
  (i.category == Category.grammar && i.severity == Severity.info) ||
  (i.category == Category.accessibility && i.severity == Severity.warning)

/-- A 30-sentence document with zero heading markers (scenario F input). -/
def tutorialDoc30 : String := String.join (List.replicate 30 "We go on now. ")

/-! ## Helper lemmas -/

theorem splitOnPred_ne_nil (p : Char → Bool) : ∀ l : List Char, splitOnPred p l ≠ []
  | [] => by simp [splitOnPred]
  | c :: cs => by
    unfold splitOnPred
    by_cases h : p c
    · simp [h]
    · rcases hs : splitOnPred p cs with _ | ⟨s, ss⟩ <;> simp [h, hs]

/-- A character that is not a separator lies in one of the split segments. -/
theorem mem_splitOnPred {p : Char → Bool} {c : Char} (hc : p c = false) :
    ∀ {l : List Char}, c ∈ l → ∃ s ∈ splitOnPred p l, c ∈ s := by
  intro l
  induction l with
  | nil => intro h; exact absurd h (List.not_mem_nil c)
  | cons d ds ih =>
    intro h
    unfold splitOnPred
    by_cases hd : p d
    · rw [if_pos hd]
      rcases List.mem_cons.mp h with rfl | hmem
      · rw [hc] at hd; exact absurd hd (by simp)
      · obtain ⟨s, hs, hcs⟩ := ih hmem
        exact ⟨s, List.mem_cons_of_mem _ hs, hcs⟩
    · rw [if_neg hd]
      rcases hs : splitOnPred p ds with _ | ⟨s₀, ss⟩
      · exact absurd hs (splitOnPred_ne_nil p ds)
      · rcases List.mem_cons.mp h with rfl | hmem
        · exact ⟨c :: s₀, List.mem_cons_self _ _, List.mem_cons_self _ _⟩
        · obtain ⟨s, hsmem, hcs⟩ := ih hmem
          rw [hs] at hsmem
          rcases List.mem_cons.mp hsmem with rfl | htail
          · exact ⟨d :: s, List.mem_cons_self _ _, List.mem_cons_of_mem _ hcs⟩
          · exact ⟨s, List.mem_cons_of_mem _ htail, hcs⟩

/-- A non-dropped element survives `dropWhile`. -/
theorem mem_dropWhile_of_neg {p : Char → Bool} {c : Char} (hc : p c = false) :
    ∀ {l : List Char}, c ∈ l → c ∈ l.dropWhile p := by
  intro l
  induction l with
  | nil => intro h; exact absurd h (List.not_mem_nil c)
  | cons d ds ih =>
    intro h
    rw [List.dropWhile_cons]
    by_cases hd : p d
    · rw [if_pos hd]
      rcases List.mem_cons.mp h with rfl | hmem
      · rw [hc] at hd; exact absurd hd (by simp)
      · exact ih hmem
    · rw [if_neg hd]; exact h

/-- A segment containing a non-whitespace character does not strip to empty. -/
theorem stripWs_not_isEmpty {c : Char} (hc : isPyWs c = false) {s : List Char}
    (h : c ∈ s) : (stripWs s).isEmpty = false := by
  have h1 := mem_dropWhile_of_neg hc h
  have h2 := mem_dropWhile_of_neg hc (List.mem_reverse.mpr h1)
  have h3 : c ∈ stripWs s := List.mem_reverse.mpr h2
  simpa [List.isEmpty_iff] using List.ne_nil_of_mem h3

/-- A whitespace-only character list strips to empty. -/
theorem stripWs_eq_nil_of_ws {l : List Char} (h : ∀ c ∈ l, isPyWs c = true) :
    stripWs l = [] := by
  unfold stripWs
  rw [List.dropWhile_eq_nil_iff.mpr h]
  rfl

/-- Tier characterisation of the status computation. -/
theorem statusOfCount_tiers (n : Nat) :
    (statusOfCount n = Status.excellent ↔ n = 0) ∧
    (statusOfCount n = Status.good ↔ 1 ≤ n ∧ n ≤ 2) ∧
    (statusOfCount n = Status.needsWork ↔ 3 ≤ n) := by
  unfold statusOfCount
  split_ifs with h1 h2
  · exact ⟨iff_of_true rfl h1, iff_of_false (by decide) (by omega),
      iff_of_false (by decide) (by omega)⟩
  · exact ⟨iff_of_false (by decide) h1, iff_of_true rfl ⟨by omega, h2⟩,
      iff_of_false (by decide) (by omega)⟩
  · exact ⟨iff_of_false (by decide) h1, iff_of_false (by decide) (by omega),
      iff_of_true rfl (by omega)⟩

/-! ## Claim theorems -/

/-- C4 (counterexample): the claim "for every non-empty input text,
wordCount ≥ 1 and sentenceCount ≥ 1" fails on the code: the non-empty input
`"."` has word count 1 but sentence count 0, because both segments produced
by splitting on the terminator are empty after stripping. -/
theorem C4_nonempty_cex :
    ("." : String) ≠ "" ∧
    (analyze_content "." "comprehensive").statistics.word_count = 1 ∧
    (analyze_content "." "comprehensive").statistics.sentence_count = 0 :=
  ⟨by decide, by decide, by decide⟩

/-- C4 (amended): for every input text containing at least one character that
is neither whitespace nor one of the sentence terminators `.`, `!`, `?`, the
statistics computed by analyze satisfy wordCount ≥ 1 and sentenceCount ≥ 1
(in particular a text with no terminator but a non-whitespace character still
counts as one sentence). -/
theorem C4_word_sentence_counts (text : String) (analysis_type : String)
    (h : ∃ c ∈ text.data, isPyWs c = false ∧ isTermCh c = false) :
    1 ≤ (analyze_content text analysis_type).statistics.word_count ∧
    1 ≤ (analyze_content text analysis_type).statistics.sentence_count := by
  obtain ⟨c, hcmem, hws, hterm⟩ := h
  constructor
  · show 1 ≤ (pyWords text).length
    obtain ⟨s, hs, hcs⟩ := mem_splitOnPred hws hcmem
    have hmem : s ∈ pyWords text := by
      refine List.mem_filter.mpr ⟨hs, ?_⟩
      simp [List.isEmpty_iff, List.ne_nil_of_mem hcs]
    exact List.length_pos.mpr (List.ne_nil_of_mem hmem)
  · show 1 ≤ (pySentences text).length
    obtain ⟨s, hs, hcs⟩ := mem_splitOnPred hterm hcmem
    have hmem : s ∈ pySentences text := by
      refine List.mem_filter.mpr ⟨hs, ?_⟩
      simp [stripWs_not_isEmpty hws hcs]
    exact List.length_pos.mpr (List.ne_nil_of_mem hmem)

/-- C4 (witness): the amended statement evaluated on `"Hi"`. -/
theorem C4_word_sentence_counts_witness :
    1 ≤ (analyze_content "Hi" "comprehensive").statistics.word_count ∧
    1 ≤ (analyze_content "Hi" "comprehensive").statistics.sentence_count :=
  C4_word_sentence_counts "Hi" "comprehensive" (by decide)

/-- C5: for every empty or whitespace-only input text and every analysis
type, the tool-level `analyze_content` of both server variants returns the
structured error result (a dict with only an `error` field — no issues,
suggestions or statistics), and being a total function it raises no
exception. -/
theorem C5_blank_input_error (text : String) (analysis_type : String)
    (h : ∀ c ∈ text.data, isPyWs c = true) :
    analyze_content_tool text analysis_type =
      ToolResult.error "No text provided for analysis" ∧
    analyze_content_tool_web text analysis_type =
      ToolResult.error "No text provided for analysis" := by
  have hz := stripWs_eq_nil_of_ws h
  constructor
  · unfold analyze_content_tool; rw [if_pos hz]
  · unfold analyze_content_tool_web; rw [if_pos hz]

/-- C5 (witness): the whitespace-only input `"  "`. -/
theorem C5_blank_input_error_witness :
    analyze_content_tool "  " "comprehensive" =
      ToolResult.error "No text provided for analysis" ∧
    analyze_content_tool_web "  " "comprehensive" =
      ToolResult.error "No text provided for analysis" :=
  C5_blank_input_error "  " "comprehensive" (by decide)

/-- C6: for every input and analysis type, in both variants, the status is
the excellent tier iff the issue count is 0, the good tier iff it is 1 or 2,
and the needs-work tier iff it is 3 or more. -/
theorem C6_status_tiers (text : String) (analysis_type : String) :
    ((analyze_content text analysis_type).status = Status.excellent ↔
      (analyze_content text analysis_type).issues.length = 0) ∧
    ((analyze_content text analysis_type).status = Status.good ↔
      1 ≤ (analyze_content text analysis_type).issues.length ∧
      (analyze_content text analysis_type).issues.length ≤ 2) ∧
    ((analyze_content text analysis_type).status = Status.needsWork ↔
      3 ≤ (analyze_content text analysis_type).issues.length) ∧
    ((analyze_content_web text analysis_type).status = Status.excellent ↔
      (analyze_content_web text analysis_type).issues.length = 0) ∧
    ((analyze_content_web text analysis_type).status = Status.good ↔
      1 ≤ (analyze_content_web text analysis_type).issues.length ∧
      (analyze_content_web text analysis_type).issues.length ≤ 2) ∧
    ((analyze_content_web text analysis_type).status = Status.needsWork ↔
      3 ≤ (analyze_content_web text analysis_type).issues.length) := by
  obtain ⟨e1, g1, w1⟩ := statusOfCount_tiers (analyze_content text analysis_type).issues.length
  obtain ⟨e2, g2, w2⟩ :=
    statusOfCount_tiers (analyze_content_web text analysis_type).issues.length
  exact ⟨e1, g1, w1, e2, g2, w2⟩

/-- C7 (counterexample): the claim that an unrecognized category yields
either the "all" superset or an explicit error fails on the code: for
category `"bogus"` both variants return a result whose `principles` dict is
empty — different from the non-empty "all" superset — and whose dict never
carries an `error` key. -/
theorem C7_unknown_category_cex :
    (get_style_guidelines "bogus").principles = [] ∧
    (get_style_guidelines "bogus").principles ≠ (get_style_guidelines "all").principles ∧
    (get_style_guidelines "bogus").error = none ∧
    (get_style_guidelines_web "bogus").principles = [] ∧
    (get_style_guidelines_web "bogus").principles ≠
      (get_style_guidelines_web "all").principles ∧
    (get_style_guidelines_web "bogus").error = none := by
  refine ⟨by decide, by decide, by decide, by decide, by decide, by decide⟩

/-- C7 (amended): for every category outside the recognized set, both
variants consistently return a guidelines object whose `principles` dict is
empty and which carries no error — neither the "all" superset nor an
explicit error. -/
theorem C7_unknown_category (category : String)
    (h : category ∉ (["voice", "grammar", "terminology", "accessibility", "all"] :
      List String)) :
    (get_style_guidelines category).principles = [] ∧
    (get_style_guidelines category).error = none ∧
    (get_style_guidelines_web category).principles = [] ∧
    (get_style_guidelines_web category).error = none := by
  simp only [List.mem_cons, List.mem_singleton, not_or] at h
  obtain ⟨h1, h2, h3, h4, h5⟩ := h
  refine ⟨?_, rfl, ?_, rfl⟩ <;>
    simp [get_style_guidelines, get_style_guidelines_web, List.mem_cons, h1, h2, h3, h4, h5]

/-- C7 (witness): the amended statement evaluated on `"nonsense"`. -/
theorem C7_unknown_category_witness :
    (get_style_guidelines "nonsense").principles = [] ∧
    (get_style_guidelines "nonsense").error = none ∧
    (get_style_guidelines_web "nonsense").principles = [] ∧
    (get_style_guidelines_web "nonsense").error = none :=
  C7_unknown_category "nonsense" (by decide)
/-- The clamp `max(0, min(10, ·))` keeps every value inside `[0, 10]`. -/
theorem clamp_bounds (x : ℚ) : 0 ≤ max 0 (min 10 x) ∧ max 0 (min 10 x) ≤ 10 :=
  ⟨le_max_left 0 _, max_le (by norm_num) (min_le_left 10 x)⟩

/-- The sequential score computation of the source equals the spec's
one-line clamp formulas, as functions of the counts. -/
theorem quality_formulas_eq (v g acc term c y : ℕ) (avg : ℚ) :
    (⟨max 0 (min 10 (10 - (v : ℚ) * 2 + min ((c : ℚ) * (1/2)) 2 + min ((y : ℚ) * (1/5)) 1)),
      max 0 (min 10 (if avg > 25 then 10 - (g : ℚ) * (3/2) - (avg - 25) * (1/10)
        else 10 - (g : ℚ) * (3/2))),
      max 0 (min 10 (10 - (acc : ℚ) * 3)),
      max 0 (min 10 (10 - (term : ℚ) * 2))⟩ : QualityScores) =
    specQualityScores v g acc term c y avg := by
  unfold specQualityScores clamp
  rw [QualityScores.mk.injEq]
  refine ⟨?_, ?_, ?_, ?_⟩
  · apply congrArg (fun x : ℚ => max 0 (min 10 x))
    rw [mul_comm ((1 : ℚ)/2) (c : ℚ), mul_comm ((1 : ℚ)/5) (y : ℚ), mul_comm (2 : ℚ) (v : ℚ)]
  · apply congrArg (fun x : ℚ => max 0 (min 10 x))
    split_ifs with havg
    · rw [max_eq_right (by linarith : (0 : ℚ) ≤ avg - 25)]
      ring
    · rw [max_eq_left (by linarith : avg - 25 ≤ (0 : ℚ))]
      ring
  · apply congrArg (fun x : ℚ => max 0 (min 10 x))
    ring
  · apply congrArg (fun x : ℚ => max 0 (min 10 x))
    ring

/-- C3: for every analysis result and original text, the quality scorer
returns exactly the four spec formulas — `voiceTone`, `clarity`,
`accessibility` and `compliance` as clamped linear functions of the
per-category issue counts, the contraction/`you` counts and the average
sentence length — and in particular every axis score lies in `[0, 10]`. -/
theorem C3_quality_score_formulas (analysis : AnalysisResult) (document_text : String) :
    calculate_quality_scores analysis document_text =
      specQualityScores
        ((analysis.issues.filter (fun i => i.category == Category.voice_tone)).length)
        ((analysis.issues.filter (fun i => i.category == Category.grammar)).length)
        ((analysis.issues.filter (fun i => i.category == Category.accessibility)).length)
        ((analysis.issues.filter (fun i => i.category == Category.terminology)).length)
        (contractionCount document_text) (youCount document_text)
        analysis.statistics.avg_words_per_sentence ∧
    (0 ≤ (calculate_quality_scores analysis document_text).voice_tone ∧
      (calculate_quality_scores analysis document_text).voice_tone ≤ 10) ∧
    (0 ≤ (calculate_quality_scores analysis document_text).clarity ∧
      (calculate_quality_scores analysis document_text).clarity ≤ 10) ∧
    (0 ≤ (calculate_quality_scores analysis document_text).accessibility ∧
      (calculate_quality_scores analysis document_text).accessibility ≤ 10) ∧
    (0 ≤ (calculate_quality_scores analysis document_text).compliance ∧
      (calculate_quality_scores analysis document_text).compliance ≤ 10) :=
  ⟨quality_formulas_eq _ _ _ _ _ _ _, clamp_bounds _, clamp_bounds _, clamp_bounds _,
    clamp_bounds _⟩

/-- C10: the accessibility axis score is non-increasing in the number of
accessibility issues — with the other inputs fixed, more accessibility
issues never yield a larger accessibility score. -/
theorem C10_accessibility_monotone (a b : AnalysisResult) (document_text : String)
    (h : (a.issues.filter (fun i => i.category == Category.accessibility)).length ≤
         (b.issues.filter (fun i => i.category == Category.accessibility)).length) :
    (calculate_quality_scores b document_text).accessibility ≤
      (calculate_quality_scores a document_text).accessibility := by
  show max 0 (min 10 (10 - ((b.issues.filter
      (fun i => i.category == Category.accessibility)).length : ℚ) * 3)) ≤
    max 0 (min 10 (10 - ((a.issues.filter
      (fun i => i.category == Category.accessibility)).length : ℚ) * 3))
  have hq : ((a.issues.filter (fun i => i.category == Category.accessibility)).length : ℚ) ≤
      ((b.issues.filter (fun i => i.category == Category.accessibility)).length : ℚ) :=
    Nat.cast_le.mpr h
  exact max_le_max le_rfl (min_le_min le_rfl (by linarith))

/-- C10 (witness): one accessibility issue (`"guys"`) against zero
(`"You"`). -/
theorem C10_accessibility_monotone_witness :
    (calculate_quality_scores (analyze_content_web "guys" "comprehensive") "x").accessibility ≤
    (calculate_quality_scores (analyze_content_web "You" "comprehensive") "x").accessibility :=
  C10_accessibility_monotone (analyze_content_web "You" "comprehensive")
    (analyze_content_web "guys" "comprehensive") "x" (by decide)
/-- C1 (counterexample): the claim that a text containing `"whitelist"`
yields a terminology-category warning Issue naming the preferred replacement
fails on the code: `"whitelist"` is not in the terminology table (it is in
the accessibility denylist), so under `analysisType = "terminology"` the
input `"whitelist"` yields no issue at all, and under `"comprehensive"` no
terminology-category issue. -/
theorem C1_terminology_whitelist_cex :
    (analyze_content "whitelist" "terminology").issues = [] ∧
    ((analyze_content "whitelist" "comprehensive").issues.all
      (fun i => !(i.category == Category.terminology))) := by
  refine ⟨by decide, by decide⟩

/-- C1 (amended): for every text in which `"whitelist"` occurs as a
word-boundary-delimited match of the non-inclusive-terms pattern
(case-insensitively), analysis with `"comprehensive"` or `"accessibility"`
yields an accessibility-category Issue of severity error for that occurrence,
whose message flags it as non-inclusive (no preferred replacement is named by
`analyze_content`); the terminology table has no whitelist entry, so
`analysisType = "terminology"` produces no issue whose matched text is
`"whitelist"`. -/
theorem C1_whitelist_flagging (text : String) (p : Nat) (m : List Char)
    (hmem : (p, m) ∈ scanWordAlt nonInclusiveAlts text)
    (_hlow : m.map Char.toLower = "whitelist".data) :
    (∃ i ∈ (analyze_content text "comprehensive").issues,
      i.category = Category.accessibility ∧ i.severity = Severity.error ∧
      i.text = some (String.mk m) ∧
      i.message = "'" ++ String.mk m ++ "' may not be inclusive - consider alternatives") ∧
    (∃ i ∈ (analyze_content text "accessibility").issues,
      i.category = Category.accessibility ∧ i.severity = Severity.error ∧
      i.text = some (String.mk m) ∧
      i.message = "'" ++ String.mk m ++ "' may not be inclusive - consider alternatives") ∧
    (∀ i ∈ (analyze_content text "terminology").issues, i.text ≠ some "whitelist") := by
  have hni : mkNonInclusiveIssue (p, m) ∈ nonInclusiveIssues text :=
    List.mem_map.mpr ⟨(p, m), hmem, rfl⟩
  refine ⟨?_, ?_, ?_⟩
  · refine ⟨mkNonInclusiveIssue (p, m), ?_, rfl, rfl, rfl, rfl⟩
    show _ ∈ offlineIssues text "comprehensive"
    unfold offlineIssues
    rw [if_pos (by decide), if_pos (by decide), if_pos (by decide), if_pos (by decide)]
    exact List.mem_append_right _ (List.mem_append_left _ hni)
  · refine ⟨mkNonInclusiveIssue (p, m), ?_, rfl, rfl, rfl, rfl⟩
    show _ ∈ offlineIssues text "accessibility"
    unfold offlineIssues
    rw [if_neg (by decide), if_neg (by decide), if_neg (by decide), if_pos (by decide)]
    simp only [List.nil_append]
    exact List.mem_append_left _ hni
  · intro i hi
    have hi' : i ∈ terminologyIssues text := by
      have heq : (analyze_content text "terminology").issues = terminologyIssues text := by
        show offlineIssues text "terminology" = _
        unfold offlineIssues
        rw [if_neg (by decide), if_neg (by decide), if_pos (by decide), if_neg (by decide)]
        simp
      rwa [heq] at hi
    unfold terminologyIssues at hi'
    rcases List.mem_flatMap.mp hi' with ⟨std, hstd, hmem2⟩
    rcases List.mem_filterMap.mp hmem2 with ⟨a, ha, heq2⟩
    by_cases hc : containsSubCI (a.data.map Char.toLower) text.data
    · rw [if_pos hc] at heq2
      cases heq2
      show some a ≠ some "whitelist"
      unfold terminology_standards at hstd
      fin_cases hstd <;> simp_all <;> rcases ha with rfl | rfl <;> decide
    · rw [if_neg hc] at heq2
      exact absurd heq2 (by simp)

/-- C1 (witness): the amended statement evaluated on the input
`"whitelist"`. -/
theorem C1_whitelist_flagging_witness :
    ∃ i ∈ (analyze_content "whitelist" "comprehensive").issues,
      i.category = Category.accessibility ∧ i.severity = Severity.error ∧
      i.text = some (String.mk "whitelist".data) ∧
      i.message = "'" ++ String.mk "whitelist".data ++
        "' may not be inclusive - consider alternatives" :=
  (C1_whitelist_flagging "whitelist" 0 "whitelist".data (by decide) (by decide)).1

/-- C9: the structural check flags "needs more headings" exactly when the
document type is tutorial/user-guide and the text has fewer than 3 heading
markers, and otherwise flags "needs better organization" exactly when the
paragraph count exceeds 10 and headings are fewer than 2; in particular the
30-sentence, zero-heading document `tutorialDoc30` with document type
`"tutorial"` is flagged as needing more headings. -/
theorem C9_structure_flags (document_text : String) (document_type : String) :
    ((review_structure document_text document_type).structure_quality =
        "Needs more headings for navigation" ↔
      document_type ∈ (["tutorial", "user_guide"] : List String) ∧
        headingCount document_text < 3) ∧
    ((review_structure document_text document_type).structure_quality =
        "Long content needs better organization" ↔
      ¬(document_type ∈ (["tutorial", "user_guide"] : List String) ∧
          headingCount document_text < 3) ∧
        (review_structure document_text document_type).paragraph_count > 10 ∧
        headingCount document_text < 2) ∧
    (computeStatistics tutorialDoc30).sentence_count = 30 ∧
    headingCount tutorialDoc30 = 0 ∧
    (review_structure tutorialDoc30 "tutorial").structure_quality =
      "Needs more headings for navigation" := by
  refine ⟨?_, ?_, by decide, by decide, by decide⟩
  · show (if (document_type ∈ (["tutorial", "user_guide"] : List String)) ∧
        headingCount document_text < 3 then "Needs more headings for navigation"
      else if ((splitNN document_text.data).filter
            (fun p => !(stripWs p).isEmpty)).length > 10 ∧
          headingCount document_text < 2 then "Long content needs better organization"
      else "Good") = "Needs more headings for navigation" ↔ _
    split_ifs with hA hB
    · exact iff_of_true rfl hA
    · exact iff_of_false (by decide) hA
    · exact iff_of_false (by decide) hA
  · show (if (document_type ∈ (["tutorial", "user_guide"] : List String)) ∧
        headingCount document_text < 3 then "Needs more headings for navigation"
      else if ((splitNN document_text.data).filter
            (fun p => !(stripWs p).isEmpty)).length > 10 ∧
          headingCount document_text < 2 then "Long content needs better organization"
      else "Good") = "Long content needs better organization" ↔ _
    split_ifs with hA hB
    · exact iff_of_false (by decide) (fun hc => hc.1 hA)
    · exact iff_of_true rfl ⟨hA, hB⟩
    · exact iff_of_false (by decide) (fun hc => hB ⟨hc.2.1, hc.2.2⟩)
/-- Every issue of the voice-and-tone block is a voice_tone/info issue. -/
theorem voiceToneChecks_fields (text : String) :
    ∀ i ∈ (voiceToneChecks text).1,
      i.category = Category.voice_tone ∧ i.severity = Severity.info := by
  intro i hi
  simp only [voiceToneChecks] at hi
  split_ifs at hi <;> simp_all

/-- Every passive-voice issue is a grammar/warning issue. -/
theorem passiveIssues_fields (text : String) :
    ∀ i ∈ passiveIssues text, i.category = Category.grammar ∧ i.severity = Severity.warning := by
  intro i hi
  rcases List.mem_map.mp hi with ⟨pm, _, rfl⟩
  exact ⟨rfl, rfl⟩

/-- Every long-sentence issue is a grammar/info issue. -/
theorem longSentenceIssues_fields (text : String) :
    ∀ i ∈ longSentenceIssues text,
      i.category = Category.grammar ∧ i.severity = Severity.info := by
  intro i hi
  rcases List.mem_map.mp hi with ⟨pm, _, rfl⟩
  exact ⟨rfl, rfl⟩

/-- Every terminology issue is a terminology/warning issue. -/
theorem terminologyIssues_fields (text : String) :
    ∀ i ∈ terminologyIssues text,
      i.category = Category.terminology ∧ i.severity = Severity.warning := by
  intro i hi
  unfold terminologyIssues at hi
  rcases List.mem_flatMap.mp hi with ⟨std, _, hmem⟩
  rcases List.mem_filterMap.mp hmem with ⟨a, _, heq⟩
  by_cases hc : containsSubCI (a.data.map Char.toLower) text.data
  · rw [if_pos hc] at heq
    cases heq
    exact ⟨rfl, rfl⟩
  · rw [if_neg hc] at heq
    exact absurd heq (by simp)

/-- Every non-inclusive-term issue is an accessibility/error issue. -/
theorem nonInclusiveIssues_fields (text : String) :
    ∀ i ∈ nonInclusiveIssues text,
      i.category = Category.accessibility ∧ i.severity = Severity.error := by
  intro i hi
  rcases List.mem_map.mp hi with ⟨pm, _, rfl⟩
  exact ⟨rfl, rfl⟩

/-- Every gendered-pronoun issue is an accessibility/warning issue. -/
theorem genderedIssues_fields (text : String) :
    ∀ i ∈ genderedIssues text,
      i.category = Category.accessibility ∧ i.severity = Severity.warning := by
  intro i hi
  rcases List.mem_map.mp hi with ⟨pm, _, rfl⟩
  exact ⟨rfl, rfl⟩

/-- `webOmitted` holds exactly for grammar/info and accessibility/warning
issues. -/
theorem webOmitted_spec (i : Issue) :
    webOmitted i = true ↔
      ((i.category = Category.grammar ∧ i.severity = Severity.info) ∨
       (i.category = Category.accessibility ∧ i.severity = Severity.warning)) := by
  unfold webOmitted
  cases i
  simp [beq_iff_eq]

/-- C8 (counterexample): the claim that both analyzers return equal issue
lists fails on the code: on input `"he"` with `analysisType =
"comprehensive"`, the offline analyzer reports a gendered-pronoun
accessibility issue that the web analyzer omits, so the lists differ. -/
theorem C8_variant_cex :
    (analyze_content_web "he" "comprehensive").issues ≠
      (analyze_content "he" "comprehensive").issues := by decide

/-- C8 (amended): for every input text, the two analyzers agree on the
statistics (every analysis type), agree completely on issues and suggestions
under `analysisType = "voice_tone"`, and under `"comprehensive"` agree on
suggestions while the web analyzer's issue list is exactly the offline one
with the long-sentence (grammar/info) and gendered-pronoun
(accessibility/warning) issues removed — equality of the full issue lists
does not hold in general. -/
theorem C8_variant_refinement (text : String) :
    (∀ analysis_type : String,
      (analyze_content_web text analysis_type).statistics =
        (analyze_content text analysis_type).statistics) ∧
    (analyze_content_web text "voice_tone").issues =
      (analyze_content text "voice_tone").issues ∧
    (analyze_content_web text "voice_tone").suggestions =
      (analyze_content text "voice_tone").suggestions ∧
    (analyze_content_web text "comprehensive").suggestions =
      (analyze_content text "comprehensive").suggestions ∧
    (analyze_content_web text "comprehensive").issues =
      (analyze_content text "comprehensive").issues.filter (fun i => !webOmitted i) := by
  refine ⟨fun _ => rfl, ?_, ?_, ?_, ?_⟩
  · show webIssues text "voice_tone" = offlineIssues text "voice_tone"
    unfold webIssues offlineIssues
    rw [if_neg (by decide), if_neg (by decide), if_neg (by decide), if_pos (by decide),
      if_neg (by decide), if_neg (by decide)]
  · show webSuggestions text = offlineSuggestions text "voice_tone"
    unfold webSuggestions offlineSuggestions
    rw [if_pos (by decide)]
  · show webSuggestions text = offlineSuggestions text "comprehensive"
    unfold webSuggestions offlineSuggestions
    rw [if_pos (by decide)]
  · show webIssues text "comprehensive" =
      (offlineIssues text "comprehensive").filter (fun i => !webOmitted i)
    unfold webIssues offlineIssues
    rw [if_pos (by decide), if_pos (by decide), if_pos (by decide), if_pos (by decide),
      if_pos (by decide), if_pos (by decide)]
    have hkeep : ∀ (l : List Issue),
        (∀ i ∈ l, webOmitted i = false) → l.filter (fun i => !webOmitted i) = l := by
      intro l h
      refine List.filter_eq_self.mpr fun i hi => ?_
      rw [h i hi]
      rfl
    have hdrop : ∀ (l : List Issue),
        (∀ i ∈ l, webOmitted i = true) → l.filter (fun i => !webOmitted i) = [] := by
      intro l h
      refine List.filter_eq_nil_iff.mpr fun i hi => ?_
      rw [h i hi]
      simp
    have hv : (voiceToneChecks text).1.filter (fun i => !webOmitted i) =
        (voiceToneChecks text).1 := by
      refine hkeep _ fun i hi => ?_
      obtain ⟨hc, hs⟩ := voiceToneChecks_fields text i hi
      simp [webOmitted, hc, hs]
    have hp : (passiveIssues text).filter (fun i => !webOmitted i) = passiveIssues text := by
      refine hkeep _ fun i hi => ?_
      obtain ⟨hc, hs⟩ := passiveIssues_fields text i hi
      simp [webOmitted, hc, hs]
    have hl : (longSentenceIssues text).filter (fun i => !webOmitted i) = [] := by
      refine hdrop _ fun i hi => ?_
      obtain ⟨hc, hs⟩ := longSentenceIssues_fields text i hi
      simp [webOmitted, hc, hs]
    have ht : (terminologyIssues text).filter (fun i => !webOmitted i) =
        terminologyIssues text := by
      refine hkeep _ fun i hi => ?_
      obtain ⟨hc, hs⟩ := terminologyIssues_fields text i hi
      simp [webOmitted, hc, hs]
    have hn : (nonInclusiveIssues text).filter (fun i => !webOmitted i) =
        nonInclusiveIssues text := by
      refine hkeep _ fun i hi => ?_
      obtain ⟨hc, hs⟩ := nonInclusiveIssues_fields text i hi
      simp [webOmitted, hc, hs]
    have hg : (genderedIssues text).filter (fun i => !webOmitted i) = [] := by
      refine hdrop _ fun i hi => ?_
      obtain ⟨hc, hs⟩ := genderedIssues_fields text i hi
      simp [webOmitted, hc, hs]
    simp only [List.filter_append, hv, hp, hl, ht, hn, hg, List.append_nil]

/-- C8 (witness): the amended statement's voice-tone agreement and filter
characterisation evaluated on `"he"`. -/
theorem C8_variant_refinement_witness :
    (analyze_content_web "he" "voice_tone").issues =
      (analyze_content "he" "voice_tone").issues ∧
    (analyze_content_web "he" "comprehensive").issues =
      (analyze_content "he" "comprehensive").issues.filter (fun i => !webOmitted i) :=
  ⟨(C8_variant_refinement "he").2.1, (C8_variant_refinement "he").2.2.2.2⟩
set_option maxRecDepth 8000 in
/-- C2 (code bug): the low-priority add-contractions recommendation is keyed
to `str(analysis)` — the string representation of the analysis dict — with a
reduced contraction pattern, not to the original input text.  When the text
has no contractions, the voice-tone issue's own message ("Consider using
contractions (it's, you're, we'll)…") matches the pattern, so the
recommendation is *not* produced; when the text does contain contractions, no
issue message does, so it *is* produced.  The behaviour is therefore exactly
inverted from the spec's "zero contractions detected anywhere": the input
`"You can't access this feature."` has contraction count 1 yet receives the
add-contractions recommendation, and `"The user should proceed."` has
contraction count 0 yet does not. -/
theorem C2_add_contractions_inverted :
    contractionCount "You can't access this feature." = 1 ∧
    "Add contractions to make tone more natural and conversational" ∈
      (generate_recommendations_with_web
        (analyze_content_web "You can't access this feature." "comprehensive")
        (calculate_quality_scores
          (analyze_content_web "You can't access this feature." "comprehensive")
          "You can't access this feature.")).low_priority ∧
    contractionCount "The user should proceed." = 0 ∧
    "Add contractions to make tone more natural and conversational" ∉
      (generate_recommendations_with_web
        (analyze_content_web "The user should proceed." "comprehensive")
        (calculate_quality_scores
          (analyze_content_web "The user should proceed." "comprehensive")
          "The user should proceed.")).low_priority := by
  refine ⟨by decide, by decide, by decide, by decide⟩
